import Mathlib

/-!
Shallow embedding of the firefly-bot conversation core.

The TypeScript sources embedded here:
- `src/services/conversation/manager.ts` (`MemoryConversationManager`)
- `src/bot/media-group-handler.ts` (`MediaGroupHandler.finalizeMediaGroup`)
- `src/bot/finance-bot.ts` (orchestration: `handleNextCommand`,
  `processTextTransaction`, `processTextAsTransaction`, `validateTransactions`,
  `handleProcessingError`, `confirmTransaction`, `processReceipt`)
- `src/bot/receipt-processor.ts` (`ReceiptProcessor.processReceipt`)
- `src/services/financial/firefly-client.ts` (`sendTransactions`)

Modelling conventions:
- `new Date()` becomes an explicit `now : Nat` argument threaded into every
  operation that reads the clock.
- Image blobs (`Buffer`) are opaque and modelled as `Nat` tokens.
- The manager keeps a `Map<string, ConversationState>`; every operation of the
  manager touches only the entry of the user it is given, so the map is
  projected to that single entry: `Store := Option ConversationState`
  (`none` = no entry for the user yet).
- TypeScript optional fields (`currentImages?`, `currentTransactions?`,
  `lastError?`, `imageIndex?`) become `Option` fields; an absent field and an
  empty array are distinguished, as JavaScript truthiness distinguishes
  `undefined` (falsy) from `[]` (truthy).
- Fallible external calls are parameters carrying their outcome
  (`Except String` for throwing calls, dedicated outcome types for the HTTP
  layer), so every orchestration path is a total function of its environment.
-/

deriving instance DecidableEq for Except

namespace FireflyBot

/-- Message author role, from `ConversationMessage.role` in the manager. -/
inductive Role
  | user
  | assistant
deriving DecidableEq, BEq, Repr

/-- `Category` from `domain/types.ts`. -/
structure Category where
  id : String
  name : String
deriving DecidableEq, BEq, Repr

/-- `Tag` from `domain/types.ts`; payload opaque to the verified paths. -/
structure Tag where
  id : String
  name : String
  description : Option String := none
deriving DecidableEq, BEq, Repr

/-- `BudgetLimit` from `domain/types.ts`; payload opaque to the verified paths. -/
structure BudgetLimit where
  id : String
  name : String
  amount : String
deriving DecidableEq, BEq, Repr

/-- `Transaction` from `domain/types.ts`. The TS type declares `category` and
`date` as required, but the runtime guard `validateTransactions` re-checks
their presence on data coming from the extraction collaborator, so they are
`Option` here; `date` is an opaque timestamp. -/
structure Transaction where
  amount : Int
  budgetId : Option String := none
  category : Option Category := none
  date : Option Nat := none
  description : String := ""
  destination : Option String := none
  groupTitle : Option String := none
  tags : List String := []
deriving DecidableEq, BEq, Repr

/-- Opaque image blob (`Buffer` in the source). -/
abbrev Image := Nat

/-- Entry of `ConversationState.messages` in the manager. `imageIndex` is an
`Int` because the source computes it as `currentImages.length - 1`, which is
`-1` on an empty array. -/
structure ConversationMessage where
  role : Role
  content : String
  hasImage : Bool := false
  imageIndex : Option Int := none
  timestamp : Nat
deriving DecidableEq, BEq, Repr

/-- `ConversationStatus` from `constants/types.ts`. -/
inductive ConversationStatus
  | idle
  | awaiting_comment
  | processing
  | awaiting_confirmation
deriving DecidableEq, BEq, Repr

/-- `ConversationState` from the conversation manager. -/
structure ConversationState where
  userId : String
  status : ConversationStatus
  messages : List ConversationMessage
  currentImages : Option (List Image) := none
  currentTransactions : Option (List Transaction) := none
  processingAttempts : Nat
  lastError : Option String := none
  lastUpdated : Nat
deriving DecidableEq, BEq, Repr

/-- The manager map `Map<string, ConversationState>` projected to the single
entry of the user under consideration. -/
abbrev Store := Option ConversationState

/-- The fresh session object built inside `getOrCreateConversation`; it has no
`currentImages`, `currentTransactions` or `lastError` keys. -/
def freshConversation (userId : String) (now : Nat) : ConversationState :=
  { userId := userId
    status := .idle
    messages := []
    processingAttempts := 0
    lastUpdated := now }

/-- `MemoryConversationManager.getOrCreateConversation`. Returns the live map
entry, inserting a fresh idle session when the user has none. -/
def getOrCreateConversation (s : Store) (userId : String) (now : Nat) :
    ConversationState × Store :=
  match s with
  | some c => (c, some c)
  | none =>
    let c := freshConversation userId now
    (c, some c)

/-- `MemoryConversationManager.resetConversation`. Replaces the map entry with
a fresh idle session; when `keepImage` is set and the old entry has a
`currentImages` array (JS truthiness: `[]` is truthy, `undefined` falsy) the
new session gets a copy of it, otherwise an empty array. The new entry always
has a `currentImages` key. -/
def resetConversation (s : Store) (userId : String) (keepImage : Bool) (now : Nat) : Store :=
  let currentImages : List Image :=
    match keepImage, s with
    | true, some old =>
      match old.currentImages with
      | some imgs => imgs
      | none => []
    | _, _ => []
  some
    { userId := userId
      status := .idle
      messages := []
      currentImages := some currentImages
      currentTransactions := none
      processingAttempts := 0
      lastError := none
      lastUpdated := now }

/-- `MemoryConversationManager.saveImageKeepContext`: initialise the image
array when absent, push the image, refresh `lastUpdated`. -/
def saveImageKeepContext (s : Store) (userId : String) (image : Image) (now : Nat) : Store :=
  let (c, _) := getOrCreateConversation s userId now
  some { c with
    currentImages := some ((c.currentImages.getD []) ++ [image])
    lastUpdated := now }

/-- `MemoryConversationManager.saveImage` (same body as
`saveImageKeepContext`). -/
def saveImage (s : Store) (userId : String) (image : Image) (now : Nat) : Store :=
  let (c, _) := getOrCreateConversation s userId now
  some { c with
    currentImages := some ((c.currentImages.getD []) ++ [image])
    lastUpdated := now }

/-- `MemoryConversationManager.clearTransactionsKeepContext`. -/
def clearTransactionsKeepContext (s : Store) (userId : String) (now : Nat) : Store :=
  let (c, _) := getOrCreateConversation s userId now
  some { c with
    currentTransactions := none
    lastUpdated := now }

/-- `MemoryConversationManager.transitionToRefinement`: only acts when the
session is awaiting confirmation. -/
def transitionToRefinement (s : Store) (userId : String) (now : Nat) : Store :=
  let (c, _) := getOrCreateConversation s userId now
  if c.status = .awaiting_confirmation then
    some { c with status := .awaiting_comment, lastUpdated := now }
  else
    some c

/-- `MemoryConversationManager.addUserMessage`. -/
def addUserMessage (s : Store) (userId : String) (content : String)
    (hasImage : Bool) (imageIndex : Option Int) (now : Nat) : Store :=
  let (c, _) := getOrCreateConversation s userId now
  some { c with
    messages := c.messages ++
      [{ role := .user, content := content, hasImage := hasImage
         imageIndex := imageIndex, timestamp := now }]
    lastUpdated := now }

/-- `MemoryConversationManager.addAssistantMessage`; the pushed entry has no
`hasImage` or `imageIndex` keys. -/
def addAssistantMessage (s : Store) (userId : String) (content : String) (now : Nat) : Store :=
  let (c, _) := getOrCreateConversation s userId now
  some { c with
    messages := c.messages ++
      [{ role := .assistant, content := content, timestamp := now }]
    lastUpdated := now }

/-- `MemoryConversationManager.updateStatus`. -/
def updateStatus (s : Store) (userId : String) (status : ConversationStatus) (now : Nat) : Store :=
  let (c, _) := getOrCreateConversation s userId now
  some { c with status := status, lastUpdated := now }

/-- `MemoryConversationManager.saveTransactions`: accepts one transaction or an
array and normalises to an array. -/
def saveTransactions (s : Store) (userId : String)
    (transactions : Transaction ⊕ List Transaction) (now : Nat) : Store :=
  let (c, _) := getOrCreateConversation s userId now
  let transactionsArray :=
    match transactions with
    | .inr l => l
    | .inl t => [t]
  some { c with
    currentTransactions := some transactionsArray
    lastUpdated := now }

/-- `MemoryConversationManager.getMessagesForAI`. -/
def getMessagesForAI (s : Store) (userId : String) (now : Nat) :
    List ConversationMessage × Store :=
  let (c, s1) := getOrCreateConversation s userId now
  (c.messages, s1)

/-- `MemoryConversationManager.incrementProcessingAttempts`: bumps the counter
and returns the new value. The source does not refresh `lastUpdated` here. -/
def incrementProcessingAttempts (s : Store) (userId : String) (now : Nat) :
    Nat × Store :=
  let (c, _) := getOrCreateConversation s userId now
  (c.processingAttempts + 1,
   some { c with processingAttempts := c.processingAttempts + 1 })

/-- `MemoryConversationManager.getCurrentImageForProcessing`: `undefined` when
there is no image array or it is empty; the element at `imageIndex` when in
range; the first image otherwise. The index is the natural array index. -/
def getCurrentImageForProcessing (s : Store) (userId : String)
    (imageIndex : Nat) (now : Nat) : Option Image × Store :=
  let (c, s1) := getOrCreateConversation s userId now
  match c.currentImages with
  | none => (none, s1)
  | some imgs =>
    if imgs.length = 0 then (none, s1)
    else if imageIndex < imgs.length then (imgs[imageIndex]?, s1)
    else (imgs[0]?, s1)

/-- `MemoryConversationManager.clearOldImages`: when more than `keepCount`
images are stored, keep `imgs.slice(-keepCount)`. In JavaScript `slice(-0)` is
`slice(0)`, a full copy, so `keepCount = 0` keeps every image. The source does
not refresh `lastUpdated` in this method. -/
def clearOldImages (s : Store) (userId : String) (keepCount : Nat) (now : Nat) : Store :=
  let (c, _) := getOrCreateConversation s userId now
  match c.currentImages with
  | some imgs =>
    if imgs.length > keepCount then
      let kept := if keepCount = 0 then imgs else imgs.drop (imgs.length - keepCount)
      some { c with currentImages := some kept }
    else some c
  | none => some c

/-- `MemoryConversationManager.setLastError`. -/
def setLastError (s : Store) (userId : String) (errorMessage : String) (now : Nat) : Store :=
  let (c, _) := getOrCreateConversation s userId now
  some { c with lastError := some errorMessage, lastUpdated := now }

/-- `MemoryConversationManager.getLastError`. -/
def getLastError (s : Store) (userId : String) (now : Nat) :
    Option String × Store :=
  let (c, s1) := getOrCreateConversation s userId now
  (c.lastError, s1)

/-! ## JavaScript string trim

`String.prototype.trim` strips leading and trailing whitespace. It is defined
here over the character list so that it evaluates structurally. -/

/-- Whitespace as recognised by the JavaScript `trim`. -/
def isJSWhitespace (ch : Char) : Bool :=
  ch == ' ' || ch == '\t' || ch == '\n' || ch == '\r'

/-- `s.trim()` of JavaScript. -/
def jsTrim (s : String) : String :=
  String.mk (((s.data.dropWhile isJSWhitespace).reverse.dropWhile isJSWhitespace).reverse)

/-! ## Constants (`constants.ts`) -/

/-- `MAX_PROCESSING_ATTEMPTS` from `constants.ts`. -/
def MAX_PROCESSING_ATTEMPTS : Nat := 3

/-- `MEDIA_GROUP_TIMEOUT_MS` from `media-group-handler.ts` (the 500ms
debounce window). -/
def MEDIA_GROUP_TIMEOUT_MS : Nat := 500

/-! ## Media group flush (`media-group-handler.ts`)

`finalizeMediaGroup` runs when the settle timer of a pending media group
expires. The source first fetches the live session object
(`getOrCreateConversation`), then, when that session is idle, calls
`resetConversation`, which replaces the map entry with a NEW object; the local
`conversation` variable keeps pointing at the detached old object. When no
reset happens, `conversation` aliases the live map entry and sees every
mutation the manager applies afterwards. The embedding reproduces exactly
this: after a reset the placeholder index is computed from the pre-reset
snapshot, otherwise from the live entry re-read from the store. -/

/-- `MediaGroupHandler.finalizeMediaGroup`, applied to the accumulated photos
of the pending group at timer expiry. -/
def finalizeMediaGroup (s : Store) (userId : String) (photos : List Image) (now : Nat) : Store :=
  let (conversation, s1) := getOrCreateConversation s userId now
  let isFirstEvent := conversation.status = ConversationStatus.idle
  let s2 := if isFirstEvent then resetConversation s1 userId false now else s1
  let s3 := photos.foldl (fun st photoBuffer => saveImageKeepContext st userId photoBuffer now) s2
  let s4 := updateStatus s3 userId .awaiting_comment now
  -- `conversation.currentImages` read through the captured reference: the
  -- detached pre-reset object when a reset happened, the live entry otherwise
  let referencedImages : Option (List Image) :=
    if isFirstEvent then conversation.currentImages
    else
      match s4 with
      | some c => c.currentImages
      | none => none
  let lastImageIndex : Int :=
    match referencedImages with
    | some imgs => (imgs.length : Int) - 1
    | none => 0
  addUserMessage s4 userId "" true (some lastImageIndex) now

/-! ## External-call environment

The extraction collaborator, the ledger side-data calls and the transport
replies are suspension points whose outcomes the orchestration merely
consumes; they are modelled as an environment value fixed for one submission. -/

/-- Outcome of the `Promise.all` fetching categories, tags, budget limits and
`fetchAndSetDefaultAccount` (whose result value is unused): either the three
lists, or the message of the first rejection. -/
abbrev FetchOutcome := Except String (List Category × List Tag × List BudgetLimit)

/-- Outcome of `aiService.processReceiptAndComments`: a single transaction or
an array (`Transaction | Transaction[]`), or a thrown error message. -/
abbrev AIOutcome := Except String (Transaction ⊕ List Transaction)

/-- Environment of one submission: the side-data fetch outcome and the
extraction outcome. -/
structure SubmitEnv where
  financial : FetchOutcome
  ai : AIOutcome

/-- `fetchFinancialData` (same wrapper in `finance-bot.ts` and
`receipt-processor.ts`): re-throws any rejection with a fixed prefix. -/
def fetchFinancialData (env : SubmitEnv) : FetchOutcome :=
  match env.financial with
  | .ok d => .ok d
  | .error e => .error ("Failed to fetch required data from financial service: " ++ e)

/-- `Array.isArray(aiResult) ? aiResult : [aiResult]`. -/
def normalizeAIResult : Transaction ⊕ List Transaction → List Transaction
  | .inl t => [t]
  | .inr l => l

/-! ## FinanceBot orchestration (`finance-bot.ts`) -/

/-- `FinanceBot.validateTransactions` applied to one transaction: the message
of the first failing check, or `none`. JS truthiness: a missing description is
the empty string, a missing category or a category with empty `id` fails, a
missing date fails. -/
def validateTransaction (t : Transaction) : Option String :=
  if t.amount ≤ 0 then
    some "Transaction amount must be greater than zero"
  else if jsTrim t.description = "" then
    some "Transaction must have a description"
  else if (match t.category with | none => true | some cat => cat.id = "") then
    some "Transaction must have a category"
  else if t.date = none then
    some "Transaction must have a date"
  else
    none

/-- `FinanceBot.validateTransactions`: throws at the first failing
transaction; the result is the thrown message, `none` when all pass. -/
def validateTransactions : List Transaction → Option String
  | [] => none
  | t :: ts =>
    match validateTransaction t with
    | some e => some e
    | none => validateTransactions ts

/-- `FinanceBot.handleProcessingError`: increments the attempt counter, stores
the error, then either resets the whole session (attempt limit reached) or
moves the session back to `awaiting_comment` for a retry. The transport
replies are side effects outside the session state. -/
def handleProcessingError (s : Store) (userId : String) (errorMessage : String) (now : Nat) : Store :=
  let (attempts, s1) := incrementProcessingAttempts s userId now
  let s2 := setLastError s1 userId errorMessage now
  if attempts ≥ MAX_PROCESSING_ATTEMPTS then
    resetConversation s2 userId false now
  else
    updateStatus s2 userId .awaiting_comment now

/-- `FinanceBot.processTextAsTransaction`: fetch side-data, require at least
one user message with non-blank content, call the extraction collaborator,
require a non-empty result, run the local validation guard, then save the
transactions and move to `awaiting_confirmation`. Errors propagate to the
caller unmodified. -/
def processTextAsTransaction (s : Store) (userId : String) (env : SubmitEnv) (now : Nat) :
    Except String (List Transaction) × Store :=
  match fetchFinancialData env with
  | .error e => (.error e, s)
  | .ok _ =>
    let (messages, s1) := getMessagesForAI s userId now
    if messages.length = 0 ||
        !(messages.any fun m => m.role == Role.user && jsTrim m.content != "") then
      (.error "No transaction description found. Please provide a description of your transaction.", s1)
    else
      match env.ai with
      | .error e => (.error e, s1)
      | .ok aiResult =>
        let transactions := normalizeAIResult aiResult
        if transactions.length = 0 then
          (.error "Failed to create any transactions from the text description. Please try with more details.", s1)
        else
          match validateTransactions transactions with
          | some e => (.error e, s1)
          | none =>
            let s2 := saveTransactions s1 userId (.inr transactions) now
            let s3 := updateStatus s2 userId .awaiting_confirmation now
            (.ok transactions, s3)

/-- `FinanceBot.processTextTransaction`: moves the session to `processing`,
runs `processTextAsTransaction`, appends the assistant summary (rendered by
the injected formatter, `uiFormatter.generateAIResponseMessage` in the source)
on success and routes any failure to `handleProcessingError`. -/
def processTextTransaction (s : Store) (userId : String) (env : SubmitEnv)
    (fmt : List Transaction → String) (now : Nat) : Store :=
  let s1 := updateStatus s userId .processing now
  match processTextAsTransaction s1 userId env now with
  | (.ok transactions, s2) => addAssistantMessage s2 userId (fmt transactions) now
  | (.error e, s2) => handleProcessingError s2 userId e now

/-- `ReceiptProcessor.processReceipt`: rejects an empty image list before the
try block; inside it, any failure is recorded with `setLastError` and
re-thrown; on success the extraction result is normalised, saved and the
session moves to `awaiting_confirmation` with no validation guard. -/
def processReceiptRP (s : Store) (userId : String) (images : List Image)
    (env : SubmitEnv) (now : Nat) : Except String (List Transaction) × Store :=
  if images.length = 0 then
    (.error "No images provided for processing", s)
  else
    match fetchFinancialData env with
    | .error e => (.error e, setLastError s userId e now)
    | .ok _ =>
      let (_, s1) := getMessagesForAI s userId now
      match env.ai with
      | .error e => (.error e, setLastError s1 userId e now)
      | .ok aiResult =>
        let transactions := normalizeAIResult aiResult
        let s2 := saveTransactions s1 userId (.inr transactions) now
        let s3 := updateStatus s2 userId .awaiting_confirmation now
        (.ok transactions, s3)

/-- `FinanceBot.processReceipt`: re-reads the session, bails out with a notice
when no images are stored, otherwise moves to `processing` and delegates to
the receipt processor, routing failures to `handleProcessingError`. -/
def processReceiptFB (s : Store) (userId : String) (env : SubmitEnv)
    (fmt : List Transaction → String) (now : Nat) : Store :=
  let (conversation, s1) := getOrCreateConversation s userId now
  match conversation.currentImages with
  | none => s1
  | some imgs =>
    if imgs.length = 0 then s1
    else
      let s2 := updateStatus s1 userId .processing now
      match processReceiptRP s2 userId imgs env now with
      | (.ok transactions, s3) => addAssistantMessage s3 userId (fmt transactions) now
      | (.error e, s3) => handleProcessingError s3 userId e now

/-- `FinanceBot.handleNextCommand`: logs an empty user entry for the "next"
trigger, then dispatches on whether the session holds images. The check reads
the live session object, so it sees the state after the append. -/
def handleNextCommand (s : Store) (userId : String) (env : SubmitEnv)
    (fmt : List Transaction → String) (now : Nat) : Store :=
  let s1 := addUserMessage s userId "" false none now
  let (conversation, s2) := getOrCreateConversation s1 userId now
  match conversation.currentImages with
  | none => processTextTransaction s2 userId env fmt now
  | some imgs =>
    if imgs.length = 0 then processTextTransaction s2 userId env fmt now
    else processReceiptFB s2 userId env fmt now

/-- Outcome of `financialService.sendTransactions` as seen by
`confirmTransaction`: accepted (`true`), declined (`false`), or a thrown
error. -/
inductive SendOutcome
  | accepted
  | declined
  | failed (msg : String)
deriving DecidableEq, Repr

/-- `FinanceBot.confirmTransaction`: a no-op notice when the session holds no
transactions; on an accepted submission, image cleanup plus a full reset; on a
declined submission or a thrown error, the session is kept in
`awaiting_confirmation`. -/
def confirmTransaction (s : Store) (userId : String) (outcome : SendOutcome) (now : Nat) : Store :=
  let (conversation, s1) := getOrCreateConversation s userId now
  match conversation.currentTransactions with
  | none => s1
  | some txs =>
    if txs.length = 0 then s1
    else
      match outcome with
      | .accepted =>
        let s2 := clearOldImages s1 userId 0 now
        resetConversation s2 userId false now
      | .declined => updateStatus s1 userId .awaiting_confirmation now
      | .failed _ => updateStatus s1 userId .awaiting_confirmation now

/-! ## Firefly ledger client (`firefly-client.ts`)

`sendTransactions` builds one POST body and returns a boolean; every failure
path (empty input, unset default account, a throw while building the body, a
non-2xx response, a thrown request) resolves to `false` inside the method.
The HTTP layer is a parameter carrying the response outcome. -/

/-- One element of the `transactions` array in the POST body. Optional keys
are set only when the source field is truthy. `date` keeps the opaque
timestamp (`toISOString` is injective on it). -/
structure FireflyTransactionData where
  amount : String
  category_name : String
  date : Nat
  description : String
  source_id : String
  type : String := "withdrawal"
  budget_id : Option String := none
  destination_name : Option String := none
  tags : Option (List String) := none
deriving DecidableEq, BEq, Repr

/-- The mapping body inside `sendTransactions`. Reading `.name` of a missing
category or calling `toISOString` on a missing date throws, which the catch
turns into `false`; that throw is modelled as `none`. JS truthiness guards the
optional keys: empty strings and empty arrays are omitted. -/
def buildTransactionData (sourceId : String) (t : Transaction) : Option FireflyTransactionData :=
  match t.category, t.date with
  | some cat, some d =>
    some
      { amount := toString t.amount
        category_name := cat.name
        date := d
        description := "[BOT] " ++ t.description
        source_id := sourceId
        budget_id :=
          match t.budgetId with
          | some b => if b = "" then none else some b
          | none => none
        destination_name :=
          match t.destination with
          | some dn => if dn = "" then none else some dn
          | none => none
        tags := if t.tags.length = 0 then none else some t.tags }
  | _, _ => none

/-- The group title of a split submission: `transactions[0].groupTitle` when
truthy, otherwise the fallback built from the first description. -/
def splitGroupTitle (transactions : List Transaction) : String :=
  let fromField : Option String :=
    match transactions.head? with
    | some t =>
      match t.groupTitle with
      | some g => if g = "" then none else some g
      | none => none
    | none => none
  match fromField with
  | some g => g
  | none =>
    "[BOT] Split: " ++
      (match transactions.head? with
       | some t => if t.description = "" then "Grouped Transaction" else t.description
       | none => "Grouped Transaction")

/-- The POST body: a bare `transactions` array for a single transaction, a
`group_title` plus the array for a split. -/
structure TransactionRequestBody where
  group_title : Option String
  transactions : List FireflyTransactionData
deriving DecidableEq, BEq, Repr

/-- `requestBody` construction inside `sendTransactions`. -/
def mkRequestBody (transactions : List Transaction)
    (transactionsData : List FireflyTransactionData) : TransactionRequestBody :=
  if transactions.length = 1 then
    { group_title := none, transactions := transactionsData }
  else
    { group_title := some (splitGroupTitle transactions), transactions := transactionsData }

/-- Outcome of the POST to `/api/v1/transactions`. -/
inductive HttpOutcome
  | success
  | failure
  | thrown (msg : String)
deriving DecidableEq, Repr

/-- `FireflyFinancialServiceClient.sendTransactions`. The first component is
the returned boolean; the second is the body of the request that reached the
HTTP layer (`none` when no request was issued). `defaultSourceAccountId` is
falsy when `null` or the empty string. -/
def sendTransactions (defaultSourceAccountId : Option String)
    (transactions : List Transaction) (http : HttpOutcome) :
    Bool × Option TransactionRequestBody :=
  if transactions.length = 0 then (false, none)
  else
    match defaultSourceAccountId with
    | none => (false, none)
    | some sourceId =>
      if sourceId = "" then (false, none)
      else
        match transactions.mapM (buildTransactionData sourceId) with
        | none => (false, none)
        | some transactionsData =>
          let requestBody := mkRequestBody transactions transactionsData
          match http with
          | .success => (true, some requestBody)
          | .failure => (false, some requestBody)
          | .thrown _ => (false, some requestBody)

/-- `FireflyFinancialServiceClient.sendTransaction` wraps `sendTransactions`
with a one-element array. -/
def sendTransaction (defaultSourceAccountId : Option String)
    (transaction : Transaction) (http : HttpOutcome) :
    Bool × Option TransactionRequestBody :=
  sendTransactions defaultSourceAccountId [transaction] http

/-! ## Claims -/

/-- C1: a media-group flush of three images into a session that was idle at
flush time appends the three images in arrival order and adds exactly one
placeholder entry, but the `imageIndex` of the placeholder is `0`, not `2`: the
source computes `conversation.currentImages.length - 1` through the local
reference captured before `resetConversation` replaced the map entry, so on
the idle/reset path it reads the detached pre-reset object (here with no image
array at all) instead of the session the images were just appended to. -/
theorem finalizeMediaGroup_idle_flush_stale_placeholder_index :
    finalizeMediaGroup none "u1" [10, 20, 30] 0 =
      some { userId := "u1", status := .awaiting_comment
             messages := [{ role := .user, content := "", hasImage := true
                            imageIndex := some 0, timestamp := 0 }]
             currentImages := some [10, 20, 30]
             currentTransactions := none
             processingAttempts := 0
             lastError := none
             lastUpdated := 0 } := by decide

/-- C3: after exactly `MAX_PROCESSING_ATTEMPTS` (3) consecutive processing
failures on a session that started with zero attempts, the session is a fresh
idle one: status idle, empty image list, `processingAttempts` 0 — whatever the
three error messages were. -/
theorem handleProcessingError_three_failures_resets (c : ConversationState)
    (userId e1 e2 e3 : String) (t1 t2 t3 : Nat)
    (h : c.processingAttempts = 0) :
    handleProcessingError
        (handleProcessingError
          (handleProcessingError (some c) userId e1 t1) userId e2 t2)
        userId e3 t3 =
      some { userId := userId, status := .idle, messages := []
             currentImages := some []
             currentTransactions := none
             processingAttempts := 0
             lastError := none
             lastUpdated := t3 } := by
  simp [handleProcessingError, incrementProcessingAttempts, setLastError, updateStatus,
        getOrCreateConversation, resetConversation, MAX_PROCESSING_ATTEMPTS, h]

/-- Witness for C3 at a concrete session and concrete error messages. -/
theorem handleProcessingError_three_failures_resets_witness :
    (({ userId := "u", status := .processing, messages := []
        currentImages := some [9], processingAttempts := 0,
        lastUpdated := 0 } : ConversationState).processingAttempts = 0) ∧
    handleProcessingError
        (handleProcessingError
          (handleProcessingError
            (some { userId := "u", status := .processing, messages := []
                    currentImages := some [9], processingAttempts := 0, lastUpdated := 0 })
            "u" "boom one" 1)
          "u" "boom two" 2)
        "u" "boom three" 3 =
      some { userId := "u", status := .idle, messages := []
             currentImages := some []
             currentTransactions := none
             processingAttempts := 0
             lastError := none
             lastUpdated := 3 } :=
  ⟨rfl,
   handleProcessingError_three_failures_resets
     { userId := "u", status := .processing, messages := []
       currentImages := some [9], processingAttempts := 0, lastUpdated := 0 }
     "u" "boom one" "boom two" "boom three" 1 2 3 rfl⟩

/-- C5: a confirm action on which the ledger reports `false` (declined, not
thrown) leaves the session in `awaiting_confirmation` with the attempt counter
and the stored transaction list exactly as they were. -/
theorem confirmTransaction_declined_frame (c : ConversationState)
    (userId : String) (txs : List Transaction) (now : Nat)
    (hc : c.currentTransactions = some txs)
    (hne : txs.length ≠ 0)
    (hst : c.status = .awaiting_confirmation) :
    ∃ c2, confirmTransaction (some c) userId .declined now = some c2 ∧
      c2.status = .awaiting_confirmation ∧
      c2.status = c.status ∧
      c2.processingAttempts = c.processingAttempts ∧
      c2.currentTransactions = c.currentTransactions := by
  refine ⟨{ c with status := .awaiting_confirmation, lastUpdated := now },
    ?_, rfl, hst.symm, rfl, rfl⟩
  simp [confirmTransaction, getOrCreateConversation, updateStatus, hc, hne]

/-- Witness for C5 at a concrete awaiting-confirmation session. -/
theorem confirmTransaction_declined_frame_witness :
    (({ userId := "u", status := .awaiting_confirmation, messages := []
        currentTransactions := some [{ amount := 5, description := "x" }]
        processingAttempts := 2,
        lastUpdated := 4 } : ConversationState).currentTransactions =
      some [{ amount := 5, description := "x" }]) ∧
    ∃ c2,
      confirmTransaction
          (some { userId := "u", status := .awaiting_confirmation, messages := []
                  currentTransactions := some [{ amount := 5, description := "x" }]
                  processingAttempts := 2, lastUpdated := 4 })
          "u" .declined 9 = some c2 ∧
        c2.status = .awaiting_confirmation ∧
        c2.status = ConversationStatus.awaiting_confirmation ∧
        c2.processingAttempts = 2 ∧
        c2.currentTransactions = some [{ amount := 5, description := "x" }] :=
  ⟨rfl,
   confirmTransaction_declined_frame
     { userId := "u", status := .awaiting_confirmation, messages := []
       currentTransactions := some [{ amount := 5, description := "x" }]
       processingAttempts := 2, lastUpdated := 4 }
     "u" [{ amount := 5, description := "x" }] 9 rfl (by decide) rfl⟩

/-- C6 counterexample: `clearOldImages` mutates the stored image list (from
`[1, 2]` to `[2]`) but leaves `lastUpdated` at its old value `5` even though
the operation runs at time `99`, so not every mutating conversation-manager
operation refreshes `lastUpdated`. -/
theorem clearOldImages_stale_lastUpdated :
    clearOldImages
        (some { userId := "u", status := .awaiting_comment, messages := []
                currentImages := some [1, 2], processingAttempts := 0, lastUpdated := 5 })
        "u" 1 99 =
      some { userId := "u", status := .awaiting_comment, messages := []
             currentImages := some [2], processingAttempts := 0, lastUpdated := 5 } := by
  decide

/-- C6 (amended): every conversation-manager mutation among message append,
image append, transaction save and clear, status change, error capture and
reset refreshes `lastUpdated` to the operation time — with the exception of
`clearOldImages`, which always leaves `lastUpdated` unchanged. -/
theorem manager_mutations_refresh_lastUpdated (s : Store) (c : ConversationState)
    (userId content e : String) (hasImage : Bool) (imageIndex : Option Int)
    (img : Image) (st : ConversationStatus) (txs : Transaction ⊕ List Transaction)
    (keep : Nat) (keepImage : Bool) (now : Nat) :
    (addUserMessage s userId content hasImage imageIndex now).map (fun x => x.lastUpdated) = some now ∧
    (addAssistantMessage s userId content now).map (fun x => x.lastUpdated) = some now ∧
    (saveImage s userId img now).map (fun x => x.lastUpdated) = some now ∧
    (saveImageKeepContext s userId img now).map (fun x => x.lastUpdated) = some now ∧
    (saveTransactions s userId txs now).map (fun x => x.lastUpdated) = some now ∧
    (clearTransactionsKeepContext s userId now).map (fun x => x.lastUpdated) = some now ∧
    (updateStatus s userId st now).map (fun x => x.lastUpdated) = some now ∧
    (setLastError s userId e now).map (fun x => x.lastUpdated) = some now ∧
    (resetConversation s userId keepImage now).map (fun x => x.lastUpdated) = some now ∧
    (clearOldImages (some c) userId keep now).map (fun x => x.lastUpdated) = some c.lastUpdated := by
  have hclear : (clearOldImages (some c) userId keep now).map
      (fun x => x.lastUpdated) = some c.lastUpdated := by
    unfold clearOldImages getOrCreateConversation
    cases h : c.currentImages with
    | none => simp [h]
    | some imgs =>
      simp only [h]
      split
      · simp
      · simp
  refine ⟨?_, ?_, ?_, ?_, ?_, ?_, ?_, ?_, ?_, hclear⟩ <;>
    cases s <;>
      simp [addUserMessage, addAssistantMessage, saveImage, saveImageKeepContext,
            saveTransactions, clearTransactionsKeepContext, updateStatus, setLastError,
            resetConversation, getOrCreateConversation, freshConversation]

/-- C7: `resetConversation` always yields a fresh idle session with empty
messages, no transactions, zero attempts and no error; with `keepImage` the
new session carries over the old image list (a copy in the source — the state
is replaced wholesale, so later mutations of the new session cannot reach the
old list), and without it the image list is empty. -/
theorem resetConversation_complete (c : ConversationState) (userId : String)
    (now : Nat) (imgs : List Image)
    (h : c.currentImages = some imgs) :
    (resetConversation (some c) userId true now =
      some { userId := userId, status := .idle, messages := []
             currentImages := some imgs
             currentTransactions := none
             processingAttempts := 0
             lastError := none
             lastUpdated := now }) ∧
    ∀ s : Store, resetConversation s userId false now =
      some { userId := userId, status := .idle, messages := []
             currentImages := some []
             currentTransactions := none
             processingAttempts := 0
             lastError := none
             lastUpdated := now } := by
  constructor
  · simp [resetConversation, h]
  · intro s
    simp [resetConversation]

/-- Witness for C7 at a concrete session holding two images. -/
theorem resetConversation_complete_witness :
    (({ userId := "u", status := .awaiting_comment, messages := []
        currentImages := some [3, 4], processingAttempts := 1,
        lastUpdated := 2 } : ConversationState).currentImages = some [3, 4]) ∧
    ((resetConversation
        (some { userId := "u", status := .awaiting_comment, messages := []
                currentImages := some [3, 4], processingAttempts := 1, lastUpdated := 2 })
        "u" true 8 =
      some { userId := "u", status := .idle, messages := []
             currentImages := some [3, 4]
             currentTransactions := none
             processingAttempts := 0
             lastError := none
             lastUpdated := 8 }) ∧
    ∀ s : Store, resetConversation s "u" false 8 =
      some { userId := "u", status := .idle, messages := []
             currentImages := some []
             currentTransactions := none
             processingAttempts := 0
             lastError := none
             lastUpdated := 8 }) :=
  ⟨rfl,
   resetConversation_complete
     { userId := "u", status := .awaiting_comment, messages := []
       currentImages := some [3, 4], processingAttempts := 1, lastUpdated := 2 }
     "u" 8 [3, 4] rfl⟩

/-- C2 counterexample: the image-based path accepts a transaction the sanity
guard rejects. With side-data available and the extraction collaborator
returning a single transaction of amount `0` (which `validateTransactions`
refuses), `processReceiptRP` still reports success, stores the transaction and
moves the session to `awaiting_confirmation`. -/
theorem processReceiptRP_saves_invalid_transaction :
    (processReceiptRP
        (some { userId := "u", status := .processing
                messages := [{ role := .user, content := "", hasImage := true
                               imageIndex := some 0, timestamp := 1 }]
                currentImages := some [4], processingAttempts := 0, lastUpdated := 1 })
        "u" [4]
        { financial := .ok ([], [], [])
          ai := .ok (.inl { amount := 0, description := "", date := none }) } 2 =
      (.ok [{ amount := 0, description := "", date := none }],
       some { userId := "u", status := .awaiting_confirmation
              messages := [{ role := .user, content := "", hasImage := true
                             imageIndex := some 0, timestamp := 1 }]
              currentImages := some [4]
              currentTransactions := some [{ amount := 0, description := "", date := none }]
              processingAttempts := 0, lastUpdated := 2 })) ∧
    validateTransactions [{ amount := 0, description := "", date := none }] =
      some "Transaction amount must be greater than zero" := by decide

/-- C2 (amended): the basic sanity guard runs only in the text-based path.
With side-data available and a non-blank user message, a violating extraction
result makes `processTextAsTransaction` fail with the guard message and
leaves the session unchanged, while the image-based `processReceiptRP` stores
the very same violating result and moves the session to
`awaiting_confirmation` without any check. -/
theorem validateTransactions_guard_text_path_only
    (c : ConversationState) (userId : String) (env : SubmitEnv) (now : Nat)
    (d : List Category × List Tag × List BudgetLimit)
    (r : Transaction ⊕ List Transaction) (e : String) (imgs : List Image)
    (hfin : env.financial = .ok d)
    (hai : env.ai = .ok r)
    (hval : validateTransactions (normalizeAIResult r) = some e)
    (hmsg : (c.messages.any fun m => m.role == Role.user && jsTrim m.content != "") = true)
    (himgs : imgs.length ≠ 0) :
    processTextAsTransaction (some c) userId env now = (.error e, some c) ∧
    processReceiptRP (some c) userId imgs env now =
      (.ok (normalizeAIResult r),
       some { c with
         currentTransactions := some (normalizeAIResult r)
         status := .awaiting_confirmation
         lastUpdated := now }) := by
  have hlen : c.messages.length ≠ 0 := by
    intro h0
    rw [List.length_eq_zero] at h0
    rw [h0] at hmsg
    simp at hmsg
  have hnn : normalizeAIResult r ≠ [] := by
    intro h0
    rw [h0] at hval
    simp [validateTransactions] at hval
  have hnlen : (normalizeAIResult r).length ≠ 0 := by
    intro h0
    exact hnn (List.length_eq_zero.mp h0)
  constructor
  · simp [processTextAsTransaction, fetchFinancialData, hfin, getMessagesForAI,
          getOrCreateConversation, hmsg, hlen, hai, hnlen, hval]
  · simp [processReceiptRP, fetchFinancialData, hfin, getMessagesForAI,
          getOrCreateConversation, himgs, hai, saveTransactions, updateStatus]

/-- Witness for C2 (amended): a session with the user message "coffee", the
extraction returning one transaction of amount `0`, one stored image. -/
theorem validateTransactions_guard_text_path_only_witness :
    ((({ userId := "u", status := .awaiting_comment
         messages := [{ role := .user, content := "coffee", timestamp := 1 }]
         currentImages := some [4], processingAttempts := 0,
         lastUpdated := 1 } : ConversationState).messages.any
        fun m => m.role == Role.user && jsTrim m.content != "") = true) ∧
    (processTextAsTransaction
        (some { userId := "u", status := .awaiting_comment
                messages := [{ role := .user, content := "coffee", timestamp := 1 }]
                currentImages := some [4], processingAttempts := 0, lastUpdated := 1 })
        "u"
        { financial := .ok ([], [], [])
          ai := .ok (.inl { amount := 0, description := "", date := none }) } 2 =
      (.error "Transaction amount must be greater than zero",
       some { userId := "u", status := .awaiting_comment
              messages := [{ role := .user, content := "coffee", timestamp := 1 }]
              currentImages := some [4], processingAttempts := 0, lastUpdated := 1 }) ∧
    processReceiptRP
        (some { userId := "u", status := .awaiting_comment
                messages := [{ role := .user, content := "coffee", timestamp := 1 }]
                currentImages := some [4], processingAttempts := 0, lastUpdated := 1 })
        "u" [4]
        { financial := .ok ([], [], [])
          ai := .ok (.inl { amount := 0, description := "", date := none }) } 2 =
      (.ok (normalizeAIResult (.inl { amount := 0, description := "", date := none })),
       some { userId := "u", status := .awaiting_confirmation
              messages := [{ role := .user, content := "coffee", timestamp := 1 }]
              currentImages := some [4]
              currentTransactions :=
                some (normalizeAIResult (.inl { amount := 0, description := "", date := none }))
              processingAttempts := 0, lastUpdated := 2 })) :=
  ⟨by decide,
   validateTransactions_guard_text_path_only
     { userId := "u", status := .awaiting_comment
       messages := [{ role := .user, content := "coffee", timestamp := 1 }]
       currentImages := some [4], processingAttempts := 0, lastUpdated := 1 }
     "u"
     { financial := .ok ([], [], [])
       ai := .ok (.inl { amount := 0, description := "", date := none }) }
     2 ([], [], []) (.inl { amount := 0, description := "", date := none })
     "Transaction amount must be greater than zero" [4]
     rfl rfl (by decide) (by decide) (by decide)⟩

/-- C4 counterexample: an explicit "next" on a session with no images and no
non-empty user text is not rejected in place — the code path goes through
`processing`, fails inside `processTextAsTransaction`, and the error policy
increments `processingAttempts` from `0` to `1`, so the session counters are
advanced, contrary to the claim. -/
theorem handleNextCommand_empty_material_advances_counter :
    handleNextCommand
        (some { userId := "u", status := .awaiting_comment, messages := []
                processingAttempts := 0, lastUpdated := 3 })
        "u" { financial := .ok ([], [], []), ai := .error "unused" } (fun _ => "") 7 =
      some { userId := "u", status := .awaiting_comment
             messages := [{ role := .user, content := "", hasImage := false, timestamp := 7 }]
             processingAttempts := 1
             lastError := some "No transaction description found. Please provide a description of your transaction."
             lastUpdated := 7 } := by decide

/-- C4 (amended): an explicit finalize on a session with neither images nor a
non-blank user-authored text entry is not rejected up front: the session is
moved to `processing`, the text path fails with the "No transaction
description found" error after the side-data fetch, and the processing-error
policy applies — the empty "next" entry is logged, `processingAttempts` is
incremented, `lastError` is set, a user-visible notice is emitted, and (while
the new count is below `MAX_PROCESSING_ATTEMPTS`) the session returns to the
awaiting-input status `awaiting_comment`. -/
theorem handleNextCommand_empty_material_error_policy
    (c : ConversationState) (userId : String) (env : SubmitEnv)
    (fmt : List Transaction → String) (now : Nat)
    (d : List Category × List Tag × List BudgetLimit)
    (hfin : env.financial = .ok d)
    (himg : c.currentImages = none ∨ c.currentImages = some [])
    (hmsg : (c.messages.any fun m => m.role == Role.user && jsTrim m.content != "") = false)
    (hatt : c.processingAttempts + 1 < MAX_PROCESSING_ATTEMPTS) :
    handleNextCommand (some c) userId env fmt now =
      some { c with
        messages := c.messages ++
          [{ role := .user, content := "", hasImage := false, imageIndex := none, timestamp := now }]
        status := .awaiting_comment
        processingAttempts := c.processingAttempts + 1
        lastError := some "No transaction description found. Please provide a description of your transaction."
        lastUpdated := now } := by
  have hatt3 : ¬ c.processingAttempts + 1 ≥ MAX_PROCESSING_ATTEMPTS := by omega
  have hjs : jsTrim "" = "" := rfl
  rcases himg with himg | himg <;>
    simp [handleNextCommand, addUserMessage, getOrCreateConversation, himg,
          processTextTransaction, updateStatus, processTextAsTransaction,
          fetchFinancialData, hfin, getMessagesForAI, List.any_append, hjs, hmsg,
          handleProcessingError, incrementProcessingAttempts, setLastError, hatt3]

/-- Witness for C4 (amended) at a concrete empty session. -/
theorem handleNextCommand_empty_material_error_policy_witness :
    (({ userId := "u", status := .awaiting_comment, messages := []
        processingAttempts := 0,
        lastUpdated := 3 } : ConversationState).currentImages = none) ∧
    handleNextCommand
        (some { userId := "u", status := .awaiting_comment, messages := []
                processingAttempts := 0, lastUpdated := 3 })
        "u" { financial := .ok ([], [], []), ai := .error "unused" } (fun _ => "") 7 =
      some { userId := "u", status := .awaiting_comment
             messages := [{ role := .user, content := "", hasImage := false
                            imageIndex := none, timestamp := 7 }]
             currentImages := none
             currentTransactions := none
             processingAttempts := 0 + 1
             lastError := some "No transaction description found. Please provide a description of your transaction."
             lastUpdated := 7 } :=
  ⟨rfl,
   handleNextCommand_empty_material_error_policy
     { userId := "u", status := .awaiting_comment, messages := []
       processingAttempts := 0, lastUpdated := 3 }
     "u" { financial := .ok ([], [], []), ai := .error "unused" } (fun _ => "") 7
     ([], [], []) rfl (Or.inl rfl) (by decide) (by decide)⟩

/-- C8: a confirmed list of two or more transactions is posted as one group
whose body carries a single `group_title` covering all members, while a list
of exactly one transaction is posted with no `group_title` key at all. -/
theorem sendTransactions_group_title (sid : String)
    (transactions : List Transaction) (http : HttpOutcome)
    (datas : List FireflyTransactionData)
    (hsid : sid ≠ "")
    (hbuild : transactions.mapM (buildTransactionData sid) = some datas) :
    (2 ≤ transactions.length →
      (sendTransactions (some sid) transactions http).2 =
        some { group_title := some (splitGroupTitle transactions), transactions := datas }) ∧
    (transactions.length = 1 →
      (sendTransactions (some sid) transactions http).2 =
        some { group_title := none, transactions := datas }) := by
  have hb2 : List.mapM.loop (buildTransactionData sid) transactions [] = some datas := hbuild
  constructor
  · intro h2
    have h0 : transactions.length ≠ 0 := by omega
    have h1 : transactions.length ≠ 1 := by omega
    cases http <;>
      simp [sendTransactions, h0, hsid, hb2, mkRequestBody, h1]
  · intro h1
    have h0 : transactions.length ≠ 0 := by omega
    cases http <;>
      simp [sendTransactions, h0, hsid, hb2, mkRequestBody, h1]

/-- Witness for C8: a two-element split carrying the group title of its head,
and a singleton posted without group semantics. -/
theorem sendTransactions_group_title_witness :
    (("acc" : String) ≠ "") ∧
    (2 ≤ ([{ amount := 5, category := some { id := "c", name := "Food" }, date := some 11
             description := "x", groupTitle := some "G" },
           { amount := 7, category := some { id := "c", name := "Food" }, date := some 12
             description := "y" }] : List Transaction).length →
      (sendTransactions (some "acc")
          [{ amount := 5, category := some { id := "c", name := "Food" }, date := some 11
             description := "x", groupTitle := some "G" },
           { amount := 7, category := some { id := "c", name := "Food" }, date := some 12
             description := "y" }] .success).2 =
        some { group_title := some (splitGroupTitle
                 [{ amount := 5, category := some { id := "c", name := "Food" }, date := some 11
                    description := "x", groupTitle := some "G" },
                  { amount := 7, category := some { id := "c", name := "Food" }, date := some 12
                    description := "y" }])
               transactions :=
                 [{ amount := "5", category_name := "Food", date := 11
                    description := "[BOT] x", source_id := "acc" },
                  { amount := "7", category_name := "Food", date := 12
                    description := "[BOT] y", source_id := "acc" }] }) :=
  ⟨by decide,
   (sendTransactions_group_title "acc"
     [{ amount := 5, category := some { id := "c", name := "Food" }, date := some 11
        description := "x", groupTitle := some "G" },
      { amount := 7, category := some { id := "c", name := "Food" }, date := some 12
        description := "y" }] .success
     [{ amount := "5", category_name := "Food", date := 11
        description := "[BOT] x", source_id := "acc" },
      { amount := "7", category_name := "Food", date := 12
        description := "[BOT] y", source_id := "acc" }]
     (by decide) (by decide)).1⟩

/-- C9: `sendTransactions` is a total boolean function of its inputs: it
reports `true` exactly when the list is non-empty, a non-empty default source
account is set, the body construction does not throw, and the HTTP response is
successful; an empty list, an unset account, a body-construction throw, a
non-2xx response and a thrown request all yield `false`. -/
theorem sendTransactions_false_on_failure (acct : Option String)
    (transactions : List Transaction) (http : HttpOutcome) :
    (sendTransactions acct transactions http).1 = true ↔
      (transactions.length ≠ 0 ∧
       ∃ sid, acct = some sid ∧ sid ≠ "" ∧
         (transactions.mapM (buildTransactionData sid)).isSome ∧
         http = .success) := by
  by_cases h0 : transactions.length = 0
  · simp [sendTransactions, h0]
  · cases acct with
    | none => simp [sendTransactions, h0]
    | some sid =>
      by_cases hsid : sid = ""
      · simp [sendTransactions, h0, hsid]
      · cases hb : transactions.mapM (buildTransactionData sid) with
        | none =>
          have hb2 : List.mapM.loop (buildTransactionData sid) transactions [] = none := hb
          simp [sendTransactions, h0, hsid, hb2]
        | some datas =>
          have hb2 : List.mapM.loop (buildTransactionData sid) transactions [] = some datas := hb
          cases http <;> simp [sendTransactions, h0, hsid, hb2]

/-- C10: `getCurrentImageForProcessing` returns `undefined` exactly when the
session stores no images (no array, or an empty one); with at least one image
and an index at or beyond the length, it falls back to the first image. -/
theorem getCurrentImageForProcessing_first_fallback (c : ConversationState)
    (userId : String) (imageIndex now : Nat) :
    ((getCurrentImageForProcessing (some c) userId imageIndex now).1 = none ↔
      (c.currentImages = none ∨ c.currentImages = some [])) ∧
    (∀ imgs, c.currentImages = some imgs → imgs.length ≠ 0 →
      imgs.length ≤ imageIndex →
      (getCurrentImageForProcessing (some c) userId imageIndex now).1 = imgs[0]?) := by
  cases h : c.currentImages with
  | none =>
    constructor
    · simp [getCurrentImageForProcessing, getOrCreateConversation, h]
    · intro imgs himgs
      cases himgs
  | some imgs =>
    cases imgs with
    | nil =>
      constructor
      · simp [getCurrentImageForProcessing, getOrCreateConversation, h]
      · intro imgs2 himgs2 hlen2
        cases himgs2
        simp at hlen2
    | cons a l =>
      have hres : (getCurrentImageForProcessing (some c) userId imageIndex now).1 =
          (if imageIndex < l.length + 1 then (a :: l)[imageIndex]? else some a) := by
        simp [getCurrentImageForProcessing, getOrCreateConversation, h, apply_ite]
        split <;> (intro hx; omega)
      constructor
      · rw [hres]
        constructor
        · intro hnone
          exfalso
          by_cases hi : imageIndex < l.length + 1
          · rw [if_pos hi] at hnone
            simp [List.getElem?_eq_none_iff] at hnone
            omega
          · rw [if_neg hi] at hnone
            simp at hnone
        · intro hor
          exfalso
          rcases hor with h1 | h2
          · cases h1
          · cases h2
      · intro imgs2 himgs2 hlen2 hge
        cases himgs2
        simp only [List.length_cons] at hge
        rw [hres, if_neg (by omega)]
        simp

/-- Witness for C10: a session with images `[7, 8]` and the out-of-range index
`5` yields the first image. -/
theorem getCurrentImageForProcessing_first_fallback_witness :
    (({ userId := "u", status := .idle, messages := []
        currentImages := some [7, 8], processingAttempts := 0,
        lastUpdated := 0 } : ConversationState).currentImages = some [7, 8]) ∧
    (getCurrentImageForProcessing
        (some { userId := "u", status := .idle, messages := []
                currentImages := some [7, 8], processingAttempts := 0, lastUpdated := 0 })
        "u" 5 0).1 = ([7, 8] : List Image)[0]? :=
  ⟨rfl,
   (getCurrentImageForProcessing_first_fallback
     { userId := "u", status := .idle, messages := []
       currentImages := some [7, 8], processingAttempts := 0, lastUpdated := 0 }
     "u" 5 0).2 [7, 8] rfl (by decide) (by decide)⟩

end FireflyBot
